import Mathlib

/-!
Verification development for the ShadertoyVR renderer
(`src/examples/cpp/qt/Example_10_Shaderfun.cpp`).

The C++ program renders a live-compiled fragment shader into an HMD while a
separate UI thread produces composited UI frames as GL textures.  This file
gives a shallow embedding of the core logic that the specification talks
about:

* the single-slot atomic UI-texture hand-off (`uiTexture.exchange`,
  `ShadertoyWindow::exchangeUiTexture`, and the consume side in
  `ShadertoyWindow::perFrameRender`);
* the fence-gated texture trash queue drained at the end of
  `perFrameRender`;
* the canonical-URL alias chase inside `ShadertoyRenderer::loadTexture`;
* shader (re)compilation in `ShadertoyRenderer::setShaderSourceInternal`;
* the per-frame uniform-update list rebuilt by
  `ShadertoyRenderer::updateUniforms`;
* channel binding in `ShadertoyRenderer::setChannelTextureInternal`;
* resolution-scale adjustment in
  `ShadertoyWindow::onModifyTextureResolution`.

GL handles are modelled as natural numbers (0 is the null handle, as in GL),
`float` quantities as exact rationals, and the GL driver (compile/link
outcomes, active-uniform introspection, the clock) as an explicit
environment record, since those live outside the repository.
-/

/-! ## Cross-thread single-slot texture hand-off (C1)

`ShadertoyWindow` holds `AtomicGlTexture uiTexture{ 0 }`.  The UI side
publishes with `exchangeUiTexture(newUiTexture)`, i.e.
`uiTexture.exchange(newUiTexture)`; the render side consumes once per frame
in `perFrameRender` with `uiTexture.exchange(0)` and, when it obtains 0,
keeps its static `lastUiTexture` instead (when it obtains a fresh handle it
retires the previous `lastUiTexture` to the trash queue, modelled separately
below). -/

/-- One cross-thread event on the hand-off slot: the UI thread publishing a
texture handle, or the render thread consuming via exchange-with-0. -/
inductive HandoffEvent where
  | publish (h : Nat)
  | consume
deriving DecidableEq

/-- The hand-off state: the atomic slot `uiTexture` and the render-thread
retained `lastUiTexture` (a function-local static in `perFrameRender`). -/
structure HandoffState where
  slot : Nat
  lastUiTexture : Nat
deriving DecidableEq

/-- One step of the hand-off protocol.  `publish h` is
`uiTexture.exchange(h)` on the UI side; `consume` is
`uiTexture.exchange(0)` on the render side followed by the
`if (0 == currentUiTexture) currentUiTexture = lastUiTexture; else
lastUiTexture = currentUiTexture;` bookkeeping of `perFrameRender`. -/
def handoffStep (s : HandoffState) : HandoffEvent → HandoffState
  | HandoffEvent.publish h => { s with slot := h }
  | HandoffEvent.consume =>
    if s.slot = 0 then s else { slot := 0, lastUiTexture := s.slot }

/-- Run a trace of hand-off events from a state. -/
def handoffRun (s : HandoffState) (tr : List HandoffEvent) : HandoffState :=
  tr.foldl handoffStep s

/-- The initial hand-off state: `AtomicGlTexture uiTexture{ 0 }` and
`static GLuint lastUiTexture = 0`. -/
def initHandoff : HandoffState := { slot := 0, lastUiTexture := 0 }

/-- The value the render-thread `uiTexture.exchange(0)` returns when it
happens right after the event trace `pre`. -/
def consumeResultAfter (pre : List HandoffEvent) : Nat :=
  (handoffRun initHandoff pre).slot

/-! ## Fence-gated texture trash queue (C2)

`perFrameRender` drains `textureTrash : std::queue<std::pair<GLuint, GLsync>>`
head to tail: while the queue is nonempty it polls the front fence with
`glClientWaitSync(sync, 0, 0)`; a signalled fence moves the texture into the
delete queue and pops, an unsignalled one breaks out of the loop.  An entry
is modelled as the handle paired with whether its fence reports completion
at poll time. -/

/-- The trash-queue drain loop of `perFrameRender`: returns the delete queue
it accumulates and the remaining trash queue. -/
def collectDeletable : List (Nat × Bool) → List Nat × List (Nat × Bool)
  | [] => ([], [])
  | (h, fenceDone) :: rest =>
    if fenceDone then
      let r := collectDeletable rest
      (h :: r.1, r.2)
    else ([], (h, fenceDone) :: rest)

/-- Fences signal in submission order (GPU completion is monotone within one
context): whenever the fence of a later entry is complete, the fence of every
earlier entry is complete too. -/
def fencesMonotone (q : List (Nat × Bool)) : Prop :=
  q.Pairwise (fun a b => b.2 = true → a.2 = true)

/-- Spec invariant (b): a texture handle enters the trash queue at most
once, so the queue never holds two entries for the same handle. -/
def handlesNodup (q : List (Nat × Bool)) : Prop :=
  (q.map Prod.fst).Nodup

/-! ## Canonical-URL alias resolution (C3)

`ShadertoyRenderer::loadTexture` starts from the requested URL and runs
`while (canonicalUrlMap.count(url)) { url = canonicalUrlMap[url]; }`.
URLs are modelled as strings and the `std::map<QUrl, QUrl>` as an
association list with distinct keys.  The C++ loop carries no hop bound and
no cycle guard; we embed one iteration as `chaseStep` and `n` iterations as
`chaseN` (once the URL is no longer a key, further steps are the identity,
exactly like the loop having exited). -/

/-- Association-list lookup, the `count`/`operator[]` pair on the
`std::map`. -/
def assocLookup {β : Type} : List (String × β) → String → Option β
  | [], _ => none
  | (k, v) :: rest, u => if u = k then some v else assocLookup rest u

/-- The loop guard `canonicalUrlMap.count(url)`. -/
def isAliasKey (m : List (String × String)) (u : String) : Bool :=
  (assocLookup m u).isSome

/-- One iteration of the alias-chase loop body (`url = canonicalUrlMap[url]`
when the guard holds, no change once the guard fails). -/
def chaseStep (m : List (String × String)) (u : String) : String :=
  match assocLookup m u with
  | some v => v
  | none => u

/-- Iterating the alias-chase loop `n` times. -/
def chaseN (m : List (String × String)) : Nat → String → String
  | 0, u => u
  | n + 1, u => chaseN m n (chaseStep m u)

/-- The canonical URL `loadTexture` ends up with whenever its `while` loop
terminates: on an alias table with `m.length` entries, a terminating chase
leaves the key set within `m.length + 1` hops (each hop consumes a distinct
key), after which `chaseStep` is the identity.  The C++ loop itself is
unbounded; on a cyclic table it never exits (settled below), so this
fuelled form agrees with it exactly on the terminating cases. -/
def resolveCanonical (m : List (String × String)) (u : String) : String :=
  chaseN m (m.length + 1) u

/-- The shape of the table `initTextureCache` actually builds: every value
is a `qrc:/` canonical URL and never itself one of the legacy alias keys. -/
def aliasValuesNotKeys (m : List (String × String)) : Prop :=
  ∀ p ∈ m, assocLookup m p.2 = none

/-- A two-entry cyclic alias table, the input on which the claim about
cycle handling is tested. -/
def cyclicAliasTable : List (String × String) := [("a", "b"), ("b", "a")]

/-! ## Channel slots and per-frame uniform actions (C6, C7)

`ShadertoyRenderer` keeps `Channel channels[4]`, each holding an
`oglplus::Texture::Target` and a (possibly null) `TexturePtr`.
`updateUniforms` introspects the active uniforms of the linked program and
rebuilds `uniformLambdas`: one per-frame action for `iGlobalTime` when
active, one for `iResolution` when active, one for `iPos` when active, and
one per channel `i` for which `iChannelI` is active and
`channels[i].texture` is non-null.  The well-known uniform names live in
`Shadertoy.h` (not under `src/`), so the active-uniform set is modelled as
a predicate over an enumeration of those names rather than over the literal
strings. -/

/-- A texture binding target (`oglplus::Texture::Target::_2D` or
`::CubeMap`). -/
inductive TexTarget where
  | two
  | cubeMap
deriving DecidableEq

/-- One channel slot: the bound texture handle (none = null `TexturePtr`)
and its target.  The C++ struct also carries a `resolution` vec3 that no
claim touches; it is omitted. -/
structure ChannelSlot where
  texture : Option Nat
  target : TexTarget
deriving DecidableEq

/-- The well-known uniform names `updateUniforms` probes for (declared in
`Shadertoy.h`): `UNIFORM_GLOBALTIME`, `UNIFORM_RESOLUTION`,
`UNIFORM_POSITION`, `UNIFORM_CHANNELS[0..3]`. -/
inductive WellKnownUniform where
  | globalTime
  | resolution
  | position
  | channel (i : Fin 4)
deriving DecidableEq

/-- One per-frame update action pushed onto `uniformLambdas`.  A channel
action records exactly the data its C++ lambda captures by value: the slot
index `i` (the lambda `[=]`-captures `i` and the `this` pointer; the
texture itself is re-read through `this` at call time, see
`runChannelLambda`). -/
inductive UniformAction where
  | setTime
  | setResolution
  | setPosition
  | bindChannel (slot : Fin 4)
deriving DecidableEq

/-- The channel part of the `updateUniforms` loop body for slot `i`:
`if (activeUniforms.count(UNIFORM_CHANNELS[i]) && channels[i].texture)
uniformLambdas.push_back(...)`. -/
def channelAction (active : WellKnownUniform → Bool)
    (channels : Fin 4 → ChannelSlot) (i : Fin 4) : List UniformAction :=
  if active (WellKnownUniform.channel i) && (channels i).texture.isSome then
    [UniformAction.bindChannel i]
  else []

/-- The `uniformLambdas` list rebuilt by `updateUniforms`: time, then
resolution, then viewer position, then channels 0..3, each present exactly
when its uniform is active (and, for channels, the slot holds a texture). -/
def rebuildUniformLambdas (active : WellKnownUniform → Bool)
    (channels : Fin 4 → ChannelSlot) : List UniformAction :=
  (if active WellKnownUniform.globalTime then [UniformAction.setTime] else []) ++
  (if active WellKnownUniform.resolution then [UniformAction.setResolution] else []) ++
  (if active WellKnownUniform.position then [UniformAction.setPosition] else []) ++
  channelAction active channels 0 ++ channelAction active channels 1 ++
  channelAction active channels 2 ++ channelAction active channels 3

/-- Recogniser for channel-binding actions. -/
def UniformAction.isBindChannel : UniformAction → Bool
  | UniformAction.bindChannel _ => true
  | _ => false

/-- Executing the channel lambda pushed by `updateUniforms` against the
current channel array of the renderer: `if (this->channels[i].texture) {
Texture::Active(i); this->channels[i].texture->Bind(channels[i].target); }`.
The result records the texture unit activated, the texture handle bound and
the target bound to, or `none` when the slot texture is now null.  Note
that the texture and target are read through `this` at execution time; only
the index `i` was captured when the action was created. -/
def runChannelLambda (channels : Fin 4 → ChannelSlot) (i : Fin 4) :
    Option (Nat × Nat × TexTarget) :=
  match (channels i).texture with
  | some t => some (i.val, t, (channels i).target)
  | none => none

/-! ## Shader (re)compilation (C4, C5, C10)

`ShadertoyRenderer::setShaderSourceInternal` zeroes `position`, derives
`vrMode` from whether the source contains `#pragma vr`, prepends the fixed
header (one sampler declaration per channel, typed from the current
target of each slot) plus the line-number header, applies the legacy-syntax rewrites,
and compiles/links.  On success it swaps in the new program, rebuilds
`uniformLambdas` via `updateUniforms`, resets `startTime` to
`Platform::elapsedSeconds()` and emits `compileSuccess`; a
`ProgramBuildError` is caught, `compileError(err.Log())` is emitted and the
function returns `false` — it never throws across the thread boundary.
The GL driver is modelled as an environment supplying the compile/link
outcome, the per-program active-uniform set, and the clock. -/

/-- The GL/driver environment of `setShaderSourceInternal`: the outcome of
compiling and linking a full fragment source (a linked program id, or the
`ProgramBuildError` log), the active uniforms of each linked program, and
`Platform::elapsedSeconds()`. -/
structure GlEnv where
  compileAndLink : String → Except String Nat
  activeUniforms : Nat → WellKnownUniform → Bool
  now : ℚ

/-- The renderer state touched by `setShaderSourceInternal`. -/
structure RendererState where
  position : ℚ × ℚ × ℚ
  vrMode : Bool
  shadertoyProgram : Option Nat
  uniformLambdas : List UniformAction
  startTime : ℚ
  channels : Fin 4 → ChannelSlot

/-- The zero viewer position, `vec3()`. -/
def vec3Zero : ℚ × ℚ × ℚ := (0, 0, 0)

/-- The immersive-mode probe `source.contains("#pragma vr")`. -/
def containsPragmaVr (source : String) : Bool :=
  decide ("#pragma vr".data <:+: source.data)

/-- Modelled from the spec: `shadertoy::SHADER_HEADER`, the fixed preamble
constant compiled in from `Shadertoy.h`, which is not under `src/`. -/
def shaderHeaderConst : String := "SHADER_HEADER\n"

/-- Modelled from the spec: `shadertoy::LINE_NUMBER_HEADER`, the
line-offset directive constant from `Shadertoy.h`, not under `src/`. -/
def lineNumberHeaderConst : String := "LINE_NUMBER_HEADER\n"

/-- One generated sampler declaration line:
`uniform samplerCube iChannelI;` for a cube-map slot, `uniform sampler2D
iChannelI;` otherwise. -/
def samplerDecl (c : ChannelSlot) (i : Nat) : String :=
  "uniform sampler" ++ (if c.target = TexTarget.cubeMap then "Cube" else "2D") ++
    " iChannel" ++ toString i ++ ";\n"

/-- The header prepended to every user fragment source: the fixed preamble,
one sampler declaration per channel slot (typed from the current
target of each slot), then the line-number header. -/
def shaderHeader (channels : Fin 4 → ChannelSlot) : String :=
  shaderHeaderConst ++
    samplerDecl (channels 0) 0 ++ samplerDecl (channels 1) 1 ++
    samplerDecl (channels 2) 2 ++ samplerDecl (channels 3) 3 ++
  lineNumberHeaderConst

/-- The legacy-syntax rewrites applied before compilation: rename
`gl_FragColor` to `FragColor` and collapse `texture2D`/`textureCube` into
`texture`.  (The C++ uses word-boundary regexes; plain substring
replacement is the same on every identifier-shaped occurrence and no claim
depends on the difference.) -/
def transformSource (source : String) : String :=
  ((source.replace "gl_FragColor" "FragColor").replace "texture2D" "texture").replace
    "textureCube" "texture"

/-- The embedding of `ShadertoyRenderer::setShaderSourceInternal`.
Returns the new state,
the C++ return value, and the diagnostic emitted through `compileError`
(`none` on success, where `compileSuccess` is emitted instead).  Order
matters and mirrors the source: `position` is zeroed and `vrMode` is
recomputed before compilation is attempted, so both happen on the failure
path too; the program swap, `updateUniforms` rebuild and `startTime` reset
happen only after a successful link. -/
def setShaderSourceInternal (env : GlEnv) (s : RendererState) (source : String) :
    RendererState × Bool × Option String :=
  let s1 : RendererState := { s with position := vec3Zero }
  let s2 : RendererState := { s1 with vrMode := containsPragmaVr source }
  let full : String := shaderHeader s2.channels ++ transformSource source
  match env.compileAndLink full with
  | Except.error log => (s2, false, some log)
  | Except.ok prog =>
    ({ s2 with
        shadertoyProgram := some prog,
        uniformLambdas := rebuildUniformLambdas (env.activeUniforms prog) s2.channels,
        startTime := env.now },
     true, none)

/-! ## Channel texture binding and the texture cache (C8)

`ShadertoyRenderer::setChannelTextureInternal(channel, type, textureSource)`
returns immediately when the requested URL equals
`channelSources[channel]`; otherwise it records the new source, clears the
slot on an empty URL, and for TEXTURE/CUBEMAP loads through `loadTexture`,
which resolves aliases, serves cache hits without touching the GPU, and on
a miss uploads via `oria::load2dTexture` and inserts the result into
`textureCache`.  VIDEO/AUDIO are accepted but bind nothing.  The model
counts GPU uploads explicitly and draws fresh texture ids from a
counter. -/

/-- The channel input kind `shadertoy::ChannelInputType`. -/
inductive ChannelInputType where
  | texture
  | cubemap
  | video
  | audio
deriving DecidableEq

/-- The texture-cache and channel state read and written by
`setChannelTextureInternal` and `loadTexture`. -/
structure TexState where
  canonicalUrlMap : List (String × String)
  textureCache : List (String × Nat)
  channels : Fin 4 → ChannelSlot
  channelSources : Fin 4 → String
  nextTex : Nat

/-- Array-slot assignment `xs[i] = v` on a `Fin 4`-indexed array. -/
def updateSlot {α : Type} (f : Fin 4 → α) (i : Fin 4) (v : α) : Fin 4 → α :=
  fun j => if j = i then v else f j

/-- The embedding of `ShadertoyRenderer::loadTexture`: chase the canonical
alias table, then
return the cached texture for the canonical URL, or lazily load it — one
GPU upload — and insert it into the cache.  Returns the new state, the
texture handle, and the number of GPU uploads performed (0 on a cache hit,
1 on a miss). -/
def loadTexture (s : TexState) (source : String) : TexState × Nat × Nat :=
  let url := resolveCanonical s.canonicalUrlMap source
  match assocLookup s.textureCache url with
  | some t => (s, t, 0)
  | none =>
    ({ s with textureCache := s.textureCache ++ [(url, s.nextTex)],
              nextTex := s.nextTex + 1 },
     s.nextTex, 1)

/-- The embedding of `ShadertoyRenderer::setChannelTextureInternal`.  The
empty string plays
the role of the default `QUrl()`.  Returns the new state and the number of
GPU uploads performed.  The C++ assigns a default-constructed `Channel` for
the unsupported VIDEO/AUDIO kinds (null texture; the target member is
left default-initialised, modelled as the 2D target). -/
def setChannelTextureInternal (s : TexState) (channel : Fin 4)
    (type : ChannelInputType) (textureSource : String) : TexState × Nat :=
  if textureSource = s.channelSources channel then (s, 0)
  else
    let s1 : TexState :=
      { s with channelSources := updateSlot s.channelSources channel textureSource }
    if textureSource = "" then
      ({ s1 with channels :=
            updateSlot s1.channels channel ({ texture := none, target := TexTarget.two } : ChannelSlot) },
        0)
    else
      match type with
      | ChannelInputType.texture =>
        let r := loadTexture s1 textureSource
        ({ r.1 with channels :=
              updateSlot r.1.channels channel ({ texture := some r.2.1, target := TexTarget.two } : ChannelSlot) },
          r.2.2)
      | ChannelInputType.cubemap =>
        let r := loadTexture s1 textureSource
        ({ r.1 with channels :=
              updateSlot r.1.channels channel ({ texture := some r.2.1, target := TexTarget.cubeMap } : ChannelSlot) },
          r.2.2)
      | ChannelInputType.video =>
        ({ s1 with channels :=
              updateSlot s1.channels channel ({ texture := none, target := TexTarget.two } : ChannelSlot) },
          0)
      | ChannelInputType.audio =>
        ({ s1 with channels :=
              updateSlot s1.channels channel ({ texture := none, target := TexTarget.two } : ChannelSlot) },
          0)

/-! ## Resolution-scale adjustment (C9)

`ShadertoyWindow::onModifyTextureResolution(scale)` computes
`newRes = scale * texRes`, clamps it with
`std::max(0.1f, std::min(1.0f, newRes))`, and only when the clamped value
differs from the current `texRes` queues a render-thread task setting
`texRes = newRes`.  Floats are modelled as exact rationals. -/

/-- The embedding of `onModifyTextureResolution`: returns the render-thread
`texRes` after
the event is processed and whether an update task was queued at all. -/
def onModifyTextureResolution (scale texRes : ℚ) : ℚ × Bool :=
  let newRes := max (1 / 10) (min 1 (scale * texRes))
  if newRes ≠ texRes then (newRes, true) else (texRes, false)

/-! ## Concrete sample inputs used by witnesses and counterexamples -/

/-- Four empty channel slots. -/
def emptyChannels : Fin 4 → ChannelSlot :=
  fun _ => { texture := none, target := TexTarget.two }

/-- A renderer state holding a previously linked program 42 and a nonempty
uniform list. -/
def sampleState : RendererState :=
  { position := (1, 2, 3), vrMode := false, shadertoyProgram := some 42,
    uniformLambdas := [UniformAction.setTime], startTime := 5,
    channels := emptyChannels }

/-- A driver on which every compile fails with a fixed log. -/
def sampleEnvFail : GlEnv :=
  { compileAndLink := fun _ => Except.error "0:12(3): error: syntax error",
    activeUniforms := fun _ _ => true, now := 9 }

/-- A driver on which every compile links as program 7 with all well-known
uniforms active. -/
def sampleEnvOk : GlEnv :=
  { compileAndLink := fun _ => Except.ok 7,
    activeUniforms := fun _ _ => true, now := 9 }

/-- An active-uniform set containing every well-known uniform. -/
def allActive : WellKnownUniform → Bool := fun _ => true

/-- Channel slots before mutation: slot 0 holds texture 10. -/
def chBefore : Fin 4 → ChannelSlot :=
  fun i => if i = 0 then { texture := some 10, target := TexTarget.two }
           else { texture := none, target := TexTarget.two }

/-- Channel slots after mutating slot 0 to texture 20 (no rebuild in
between). -/
def chAfter : Fin 4 → ChannelSlot :=
  fun i => if i = 0 then { texture := some 20, target := TexTarget.two }
           else { texture := none, target := TexTarget.two }

/-- An active-uniform set lacking only the viewer-position uniform. -/
def activeNoPosition : WellKnownUniform → Bool :=
  fun u => match u with
  | WellKnownUniform.position => false
  | _ => true

/-- Channel slots 0 and 1 populated, 2 and 3 empty. -/
def twoPopulatedChannels : Fin 4 → ChannelSlot :=
  fun i => if i.val < 2 then { texture := some (30 + i.val), target := TexTarget.two }
           else { texture := none, target := TexTarget.two }

/-- The bundled preset texture URL named by the end-to-end
scenario of the spec. -/
def tex00Url : String := "qrc:/textures/tex00.png"

/-- Modelled from the spec: the state right after `initTextureCache` for a
catalog containing `textures/tex00.png` (the `TEXTURES` array lives in
`Shadertoy.h`, not under `src/`; per the data model of the spec the cache is
preloaded from the fixed preset catalog, and `initTextureCache` in `src`
preloads `qrc:/` + mnemonic for every catalog entry and aliases the legacy
preset spellings to it).  Channel 0 is unset. -/
def preloadedState : TexState :=
  { canonicalUrlMap := [("preset://tex/0", tex00Url), ("preset://tex/00", tex00Url)],
    textureCache := [(tex00Url, 100)],
    channels := emptyChannels,
    channelSources := fun _ => "",
    nextTex := 101 }

/-- The same state with an empty texture cache: the identifier has never
been loaded. -/
def uncachedState : TexState :=
  { canonicalUrlMap := [],
    textureCache := [],
    channels := emptyChannels,
    channelSources := fun _ => "",
    nextTex := 100 }

/-! ## Theorems -/

/-- Helper: after running any trace, the slot is either empty, still the
starting slot value, or was published somewhere in the trace. -/
theorem handoffRun_slot_cases (s : HandoffState) (tr : List HandoffEvent) :
    (handoffRun s tr).slot = 0 ∨ (handoffRun s tr).slot = s.slot ∨
      HandoffEvent.publish (handoffRun s tr).slot ∈ tr := by
  induction tr generalizing s with
  | nil => exact Or.inr (Or.inl rfl)
  | cons e tr ih =>
    have hrun : handoffRun s (e :: tr) = handoffRun (handoffStep s e) tr := rfl
    rw [hrun]
    rcases ih (handoffStep s e) with h0 | hsame | hmem
    · exact Or.inl h0
    · cases e with
      | publish h =>
        refine Or.inr (Or.inr ?_)
        rw [hsame]
        simp [handoffStep]
      | consume =>
        by_cases hz : s.slot = 0
        · refine Or.inl ?_
          rw [hsame]
          simp [handoffStep, hz]
        · refine Or.inl ?_
          rw [hsame]
          simp [handoffStep, hz]
    · exact Or.inr (Or.inr (List.mem_cons_of_mem e hmem))

/-- C1: on the single-slot UI-texture hand-off, (a) every consume returns
the empty handle 0 or a handle published earlier in the trace; (b) a
non-empty handle is never returned by two consumes unless it was published
again between them; (c) when consume yields 0 the render thread keeps its
retained `lastUiTexture` unchanged (it keeps rendering the last non-empty
handle instead of overwriting it with nothing). -/
theorem uiTexture_handoff_correct :
    (∀ pre : List HandoffEvent,
       consumeResultAfter pre = 0 ∨
         HandoffEvent.publish (consumeResultAfter pre) ∈ pre) ∧
    (∀ pre mid : List HandoffEvent,
       consumeResultAfter pre ≠ 0 →
       consumeResultAfter (pre ++ HandoffEvent.consume :: mid) =
         consumeResultAfter pre →
       HandoffEvent.publish (consumeResultAfter pre) ∈ mid) ∧
    (∀ s : HandoffState, s.slot = 0 →
       (handoffStep s HandoffEvent.consume).lastUiTexture = s.lastUiTexture) := by
  refine ⟨?_, ?_, ?_⟩
  · intro pre
    rcases handoffRun_slot_cases initHandoff pre with h0 | hsame | hmem
    · exact Or.inl h0
    · exact Or.inl (by rw [consumeResultAfter, hsame]; rfl)
    · exact Or.inr hmem
  · intro pre mid hne heq
    have hsplit : consumeResultAfter (pre ++ HandoffEvent.consume :: mid) =
        (handoffRun (handoffStep (handoffRun initHandoff pre) HandoffEvent.consume) mid).slot := by
      simp [consumeResultAfter, handoffRun, List.foldl_append]
    have hzero : (handoffStep (handoffRun initHandoff pre) HandoffEvent.consume).slot = 0 := by
      by_cases hz : (handoffRun initHandoff pre).slot = 0
      · exact absurd hz hne
      · simp [handoffStep, hz]
    rcases handoffRun_slot_cases
        (handoffStep (handoffRun initHandoff pre) HandoffEvent.consume) mid with h0 | hsame | hmem
    · rw [hsplit] at heq; rw [heq] at h0; exact absurd h0 hne
    · rw [hsplit] at heq
      rw [heq, hzero] at hsame
      exact absurd hsame hne
    · rw [hsplit] at heq; rw [heq] at hmem; exact hmem
  · intro s hz
    simp [handoffStep, hz]

/-- C1 witness: concrete instantiation of the second conjunct.  After
publishing handle 7, a consume returns 7; it can be returned a second time
only because 7 was published again in between. -/
theorem uiTexture_handoff_correct_witness :
    HandoffEvent.publish 7 ∈ [HandoffEvent.publish 7] :=
  uiTexture_handoff_correct.2.1 [HandoffEvent.publish 7] [HandoffEvent.publish 7]
    (by decide) (by decide)

/-- Helper: the drain loop produces exactly the handles of the maximal
all-signalled front segment of the trash queue, in queue order. -/
theorem collectDeletable_eq_takeWhile (q : List (Nat × Bool)) :
    (collectDeletable q).1 = (q.takeWhile (fun p => p.2)).map Prod.fst := by
  induction q with
  | nil => rfl
  | cons p rest ih =>
    obtain ⟨h, d⟩ := p
    cases d with
    | true => simp [collectDeletable, List.takeWhile_cons, ih]
    | false => simp [collectDeletable, List.takeWhile_cons]

/-- Helper: with fences completing in submission order, an entry whose fence
is complete lies in the all-signalled front segment. -/
theorem mem_takeWhile_of_fencesMonotone (q : List (Nat × Bool)) (h : Nat)
    (hmono : fencesMonotone q) (hmem : (h, true) ∈ q) :
    (h, true) ∈ q.takeWhile (fun p => p.2) := by
  induction q with
  | nil => cases hmem
  | cons p rest ih =>
    rcases List.pairwise_cons.mp hmono with ⟨hhead, hrest⟩
    rcases List.mem_cons.mp hmem with hp | hr
    · rw [← hp]
      simp [List.takeWhile_cons]
    · have hp2 : p.2 = true := hhead (h, true) hr rfl
      obtain ⟨ph, pd⟩ := p
      simp only at hp2
      subst hp2
      have hcons : List.takeWhile (fun p => p.2) ((ph, true) :: rest) =
          (ph, true) :: List.takeWhile (fun p => p.2) rest := by
        simp [List.takeWhile_cons]
      rw [hcons]
      exact List.mem_cons_of_mem _ (ih hrest hr)

/-- C2: for the fence-gated trash queue, (a) one collection pass returns
exactly the handles of the maximal signalled front segment in retirement
order and stops at the first still-pending fence (FIFO drain, never a
later-retired handle before an earlier one); (b) the output is a sublist of
the retired handles in order; (c) when fences complete in submission order
and no handle is retired twice, a handle with a signalled fence is output
exactly once; (d) a handle whose fence is still pending is never output. -/
theorem collectDeletable_correct :
    (∀ q : List (Nat × Bool),
       (collectDeletable q).1 = (q.takeWhile (fun p => p.2)).map Prod.fst) ∧
    (∀ q : List (Nat × Bool), (collectDeletable q).1.Sublist (q.map Prod.fst)) ∧
    (∀ (q : List (Nat × Bool)) (h : Nat), fencesMonotone q → handlesNodup q →
       (h, true) ∈ q → (collectDeletable q).1.count h = 1) ∧
    (∀ (q : List (Nat × Bool)) (h : Nat), handlesNodup q →
       (h, false) ∈ q → h ∉ (collectDeletable q).1) := by
  have hsub : ∀ q : List (Nat × Bool),
      (collectDeletable q).1.Sublist (q.map Prod.fst) := by
    intro q
    rw [collectDeletable_eq_takeWhile]
    exact (List.takeWhile_sublist (fun p => p.2)).map Prod.fst
  refine ⟨collectDeletable_eq_takeWhile, hsub, ?_, ?_⟩
  · intro q h hmono hnodup hmem
    have hout : h ∈ (collectDeletable q).1 := by
      rw [collectDeletable_eq_takeWhile]
      exact List.mem_map.mpr ⟨(h, true), mem_takeWhile_of_fencesMonotone q h hmono hmem, rfl⟩
    have hnd : (collectDeletable q).1.Nodup := (hsub q).nodup hnodup
    exact List.count_eq_one_of_mem hnd hout
  · intro q h hnodup hmem hout
    rw [collectDeletable_eq_takeWhile] at hout
    rcases List.mem_map.mp hout with ⟨p, hp, hph⟩
    have hptrue : p.2 = true := List.mem_takeWhile_imp hp
    have hpq : p ∈ q := (List.takeWhile_sublist (fun x : Nat × Bool => x.2)).subset hp
    have : p = (h, false) :=
      List.inj_on_of_nodup_map hnodup hpq hmem (by rw [hph])
    rw [this] at hptrue
    cases hptrue

/-- C2 witness: for the concrete trash queue ⟨(3, done), (5, done),
(9, pending)⟩ the pass outputs 5 exactly once and does not output 9. -/
theorem collectDeletable_correct_witness :
    (collectDeletable [(3, true), (5, true), (9, false)]).1.count 5 = 1 ∧
      9 ∉ (collectDeletable [(3, true), (5, true), (9, false)]).1 :=
  ⟨collectDeletable_correct.2.2.1 [(3, true), (5, true), (9, false)] 5
      (by unfold fencesMonotone; decide) (by unfold handlesNodup; decide) (by decide),
   collectDeletable_correct.2.2.2 [(3, true), (5, true), (9, false)] 9
      (by unfold handlesNodup; decide) (by decide)⟩

/-- Helper: a successful association-list lookup returns a stored value. -/
theorem assocLookup_mem {β : Type} (m : List (String × β)) (u : String) (v : β)
    (h : assocLookup m u = some v) : (u, v) ∈ m := by
  induction m with
  | nil => cases h
  | cons p rest ih =>
    obtain ⟨k, w⟩ := p
    by_cases hk : u = k
    · subst hk
      simp [assocLookup] at h
      subst h
      exact List.mem_cons_self _ _
    · rw [assocLookup, if_neg hk] at h
      exact List.mem_cons_of_mem _ (ih h)

/-- Helper: on the cyclic table the chase forever oscillates between the
two keys. -/
theorem chaseN_cyclic_mem (n : Nat) (u : String) (hu : u = "a" ∨ u = "b") :
    chaseN cyclicAliasTable n u = "a" ∨ chaseN cyclicAliasTable n u = "b" := by
  induction n generalizing u with
  | zero => exact hu
  | succ n ih =>
    rcases hu with h | h <;> subst h
    · exact ih (chaseStep cyclicAliasTable "a") (Or.inr (by decide))
    · exact ih (chaseStep cyclicAliasTable "b") (Or.inl (by decide))

/-- C3 counterexample: the alias walk of `loadTexture` does not treat a
cyclic alias table as a resolution failure, nor does it reach a fixed point
within a small bounded number of hops: starting from the aliased identifier
"a" of the two-entry cyclic table, after 20 hops the walk is back at "a"
and the loop guard (`canonicalUrlMap.count(url)`) still holds, so the
`while` loop keeps going. -/
theorem aliasChase_unbounded_counterexample :
    isAliasKey cyclicAliasTable "a" = true ∧
      chaseN cyclicAliasTable 20 "a" = "a" ∧
      isAliasKey cyclicAliasTable (chaseN cyclicAliasTable 20 "a") = true := by
  decide

/-- C3 amended: the alias walk terminates not because of any cycle or depth
guard (there is none) but because of the shape of the table
`initTextureCache` builds: (a) on any table whose values are never
themselves alias keys, a single hop reaches a fixed point outside the key
set; (b) on the cyclic table, after any number of hops whatsoever the
walk is still inside the key set, i.e. the unguarded `while` loop of
`loadTexture` never exits. -/
theorem aliasChase_terminates_iff_acyclic :
    (∀ (m : List (String × String)) (u : String), aliasValuesNotKeys m →
       isAliasKey m (chaseN m 1 u) = false) ∧
    (∀ n : Nat, isAliasKey cyclicAliasTable (chaseN cyclicAliasTable n "a") = true) := by
  constructor
  · intro m u hvals
    have h1 : chaseN m 1 u = chaseStep m u := rfl
    rw [h1]
    cases hlook : assocLookup m u with
    | none =>
      rw [chaseStep, hlook, isAliasKey, hlook]
      rfl
    | some v =>
      have hv : assocLookup m v = none := hvals (u, v) (assocLookup_mem m u v hlook)
      rw [chaseStep, hlook, isAliasKey, hv]
      rfl
  · intro n
    rcases chaseN_cyclic_mem n "a" (Or.inl rfl) with h | h <;> rw [h] <;> decide

/-- C3 amended witness: on a one-entry table of the `initTextureCache`
shape (legacy preset key mapped to a canonical `qrc:/` URL that is not a
key), one hop from any identifier leaves the key set. -/
theorem aliasChase_terminates_iff_acyclic_witness :
    isAliasKey [("preset://tex/00", "qrc:/textures/tex00.png")]
      (chaseN [("preset://tex/00", "qrc:/textures/tex00.png")] 1 "preset://tex/00") = false :=
  aliasChase_terminates_iff_acyclic.1
    [("preset://tex/00", "qrc:/textures/tex00.png")] "preset://tex/00"
    (by unfold aliasValuesNotKeys; decide)

/-- C4: when compiling or linking the (headered, rewritten) source fails,
`setShaderSourceInternal` returns `false` with the compiler log as its
diagnostic — non-empty whenever the driver log is, and the catch block
means nothing is thrown across the thread boundary — and the
previously-current program, its rebuilt uniform-action list and the shader
time origin are all left untouched, so the render loop keeps rendering the
last good program. -/
theorem build_failure_keeps_last_good (env : GlEnv) (s : RendererState)
    (source log : String)
    (hc : env.compileAndLink (shaderHeader s.channels ++ transformSource source) =
      Except.error log)
    (hlog : log ≠ "") :
    (setShaderSourceInternal env s source).2.1 = false ∧
    (setShaderSourceInternal env s source).2.2 = some log ∧
    (setShaderSourceInternal env s source).2.2 ≠ some "" ∧
    (setShaderSourceInternal env s source).1.shadertoyProgram = s.shadertoyProgram ∧
    (setShaderSourceInternal env s source).1.uniformLambdas = s.uniformLambdas ∧
    (setShaderSourceInternal env s source).1.startTime = s.startTime := by
  have hres : setShaderSourceInternal env s source =
      ({ s with position := vec3Zero, vrMode := containsPragmaVr source },
        false, some log) := by
    simp only [setShaderSourceInternal, hc]
  rw [hres]
  refine ⟨rfl, rfl, ?_, rfl, rfl, rfl⟩
  intro hcontra
  exact hlog (Option.some.inj hcontra)

/-- C4 witness: on a driver whose compile fails with a fixed non-empty log,
a rebuild of `sampleState` reports that log and keeps program 42 and its
one-action uniform list current. -/
theorem build_failure_keeps_last_good_witness :
    (setShaderSourceInternal sampleEnvFail sampleState "void main()").2.1 = false ∧
    (setShaderSourceInternal sampleEnvFail sampleState "void main()").1.shadertoyProgram =
      some 42 ∧
    (setShaderSourceInternal sampleEnvFail sampleState "void main()").1.uniformLambdas =
      [UniformAction.setTime] := by
  have h := build_failure_keeps_last_good sampleEnvFail sampleState "void main()"
    "0:12(3): error: syntax error" rfl (by decide)
  exact ⟨h.1, h.2.2.2.1.trans rfl, h.2.2.2.2.1.trans rfl⟩

/-- C5: on every successful (re)compile, `setShaderSourceInternal` resets
`startTime` to the current `Platform::elapsedSeconds()`, so the
`iGlobalTime` uniform computed per frame as `elapsedSeconds() - startTime`
restarts from zero.  The statement quantifies over all sources and all
previous states, with no condition relating them, so it covers in
particular re-submission of source identical to the currently compiled
one. -/
theorem build_success_resets_time (env : GlEnv) (s : RendererState)
    (source : String) (prog : Nat)
    (hc : env.compileAndLink (shaderHeader s.channels ++ transformSource source) =
      Except.ok prog) :
    (setShaderSourceInternal env s source).1.startTime = env.now ∧
    (setShaderSourceInternal env s source).2.1 = true := by
  simp only [setShaderSourceInternal, hc]
  exact ⟨trivial, trivial⟩

/-- C5 witness: recompiling on the succeeding driver stamps the new time
origin 9 regardless of the previous origin 5. -/
theorem build_success_resets_time_witness :
    (setShaderSourceInternal sampleEnvOk sampleState "void main() ").1.startTime = 9 :=
  (build_success_resets_time sampleEnvOk sampleState "void main() " 7 rfl).1

/-- C10: on every call to `setShaderSourceInternal` — whether the compile
succeeds or fails — the viewer position is reset to the zero vector and
`vrMode` is recomputed from whether the new source contains `#pragma vr`,
because both assignments precede the compile attempt; a failed
recompilation therefore still resets the viewer position and can change
the display mode even though the previous program remains current. -/
theorem build_always_resets_position_and_vrMode (env : GlEnv)
    (s : RendererState) (source : String) :
    (setShaderSourceInternal env s source).1.position = vec3Zero ∧
    (setShaderSourceInternal env s source).1.vrMode = containsPragmaVr source := by
  cases hc : env.compileAndLink (shaderHeader s.channels ++ transformSource source) with
  | error log => simp only [setShaderSourceInternal, hc]; exact ⟨trivial, trivial⟩
  | ok prog => simp only [setShaderSourceInternal, hc]; exact ⟨trivial, trivial⟩


/-- Helper: counting an element in a one-element conditional list of
itself. -/
theorem count_ite_self {α : Type} [DecidableEq α] {b : Prop} [Decidable b] (x : α) :
    List.count x (if b then [x] else []) = if b then 1 else 0 := by
  split <;> simp

/-- Helper: counting an element in a one-element conditional list of a
different element. -/
theorem count_ite_ne {α : Type} [DecidableEq α] {b : Prop} [Decidable b] {x y : α}
    (h : x ≠ y) : List.count x (if b then [y] else []) = 0 := by
  split <;> simp [List.count_cons, h]

/-- Helper: a channel piece of `uniformLambdas` contains no non-channel
action. -/
theorem count_channelAction_not_bind (active : WellKnownUniform → Bool)
    (channels : Fin 4 → ChannelSlot) (j : Fin 4) (x : UniformAction)
    (h : ∀ k : Fin 4, x ≠ UniformAction.bindChannel k) :
    List.count x (channelAction active channels j) = 0 := by
  unfold channelAction
  exact count_ite_ne (h j)

/-- Helper: how often one channel piece of `uniformLambdas` contains a given
channel-binding action. -/
theorem count_channelAction_bind (active : WellKnownUniform → Bool)
    (channels : Fin 4 → ChannelSlot) (i j : Fin 4) :
    List.count (UniformAction.bindChannel i) (channelAction active channels j) =
      if i = j ∧ (active (WellKnownUniform.channel j) &&
          (channels j).texture.isSome) = true then 1 else 0 := by
  unfold channelAction
  by_cases hij : i = j
  · subst hij
    rw [count_ite_self]
    by_cases hc : (active (WellKnownUniform.channel i) && (channels i).texture.isSome) = true
    · simp [hc]
    · simp [hc]
  · rw [count_ite_ne (by simp [hij])]
    simp [hij]

/-- Helper: scalar pieces of `uniformLambdas` contribute no channel-binding
action. -/
theorem countP_ite_not_bind {b : Prop} [Decidable b] {y : UniformAction}
    (h : y.isBindChannel = false) :
    List.countP (fun a => a.isBindChannel) (if b then [y] else []) = 0 := by
  split <;> simp [List.countP_cons, h]

/-- Helper: a channel piece contributes one channel-binding action exactly
when its uniform is active and its slot holds a texture. -/
theorem countP_channelAction (active : WellKnownUniform → Bool)
    (channels : Fin 4 → ChannelSlot) (j : Fin 4) :
    List.countP (fun a => a.isBindChannel) (channelAction active channels j) =
      if (active (WellKnownUniform.channel j) && (channels j).texture.isSome) = true
      then 1 else 0 := by
  unfold channelAction
  split <;> simp_all [List.countP_cons, UniformAction.isBindChannel]

/-- C6: `updateUniforms` appends exactly one per-frame action for each
well-known uniform present in the active-uniform set of the program — time,
resolution, viewer position, and one sampler per channel slot holding a
texture — and no action for absent names.  In particular a program lacking
the viewer-position uniform yields a sequence with no viewer-position
action, and a program with all four channel samplers active but only the
first two slots holding textures yields exactly two channel-binding
actions. -/
theorem updateUniforms_exactly_present (active : WellKnownUniform → Bool)
    (channels : Fin 4 → ChannelSlot) :
    ((rebuildUniformLambdas active channels).count UniformAction.setTime =
       if active WellKnownUniform.globalTime then 1 else 0) ∧
    ((rebuildUniformLambdas active channels).count UniformAction.setResolution =
       if active WellKnownUniform.resolution then 1 else 0) ∧
    ((rebuildUniformLambdas active channels).count UniformAction.setPosition =
       if active WellKnownUniform.position then 1 else 0) ∧
    (∀ i : Fin 4,
       (rebuildUniformLambdas active channels).count (UniformAction.bindChannel i) =
         if active (WellKnownUniform.channel i) && (channels i).texture.isSome
         then 1 else 0) ∧
    (active WellKnownUniform.position = false →
       UniformAction.setPosition ∉ rebuildUniformLambdas active channels) ∧
    ((∀ i : Fin 4, active (WellKnownUniform.channel i) = true) →
       (channels 0).texture.isSome = true → (channels 1).texture.isSome = true →
       (channels 2).texture = none → (channels 3).texture = none →
       (rebuildUniformLambdas active channels).countP
         (fun a => a.isBindChannel) = 2) := by
  have hpos : (rebuildUniformLambdas active channels).count UniformAction.setPosition =
      if active WellKnownUniform.position then 1 else 0 := by
    rw [rebuildUniformLambdas]
    simp only [List.count_append]
    rw [count_ite_ne (by simp), count_ite_ne (by simp), count_ite_self,
      count_channelAction_not_bind _ _ _ _ (by simp),
      count_channelAction_not_bind _ _ _ _ (by simp),
      count_channelAction_not_bind _ _ _ _ (by simp),
      count_channelAction_not_bind _ _ _ _ (by simp)]
    omega
  refine ⟨?_, ?_, hpos, ?_, ?_, ?_⟩
  · rw [rebuildUniformLambdas]
    simp only [List.count_append]
    rw [count_ite_self, count_ite_ne (by simp), count_ite_ne (by simp),
      count_channelAction_not_bind _ _ _ _ (by simp),
      count_channelAction_not_bind _ _ _ _ (by simp),
      count_channelAction_not_bind _ _ _ _ (by simp),
      count_channelAction_not_bind _ _ _ _ (by simp)]
    omega
  · rw [rebuildUniformLambdas]
    simp only [List.count_append]
    rw [count_ite_ne (by simp), count_ite_self, count_ite_ne (by simp),
      count_channelAction_not_bind _ _ _ _ (by simp),
      count_channelAction_not_bind _ _ _ _ (by simp),
      count_channelAction_not_bind _ _ _ _ (by simp),
      count_channelAction_not_bind _ _ _ _ (by simp)]
    omega
  · intro i
    rw [rebuildUniformLambdas]
    simp only [List.count_append]
    rw [count_ite_ne (by simp), count_ite_ne (by simp), count_ite_ne (by simp),
      count_channelAction_bind, count_channelAction_bind,
      count_channelAction_bind, count_channelAction_bind]
    fin_cases i <;> simp
  · intro hp
    have h := hpos
    rw [hp] at h
    simp only [Bool.false_eq_true, if_false] at h
    exact List.count_eq_zero.mp h
  · intro hall h0 h1 h2 h3
    rw [rebuildUniformLambdas]
    simp only [List.countP_append]
    rw [countP_ite_not_bind (by rfl), countP_ite_not_bind (by rfl),
      countP_ite_not_bind (by rfl),
      countP_channelAction, countP_channelAction,
      countP_channelAction, countP_channelAction]
    rw [hall 0, hall 1, hall 2, hall 3, h0, h1, h2, h3]
    simp

/-- C6 witness: with every uniform active and slots 0 and 1 populated the
rebuilt sequence contains exactly two channel bindings; with the
viewer-position uniform absent the rebuilt sequence contains no
viewer-position action. -/
theorem updateUniforms_exactly_present_witness :
    (rebuildUniformLambdas allActive twoPopulatedChannels).countP
      (fun a => a.isBindChannel) = 2 ∧
    UniformAction.setPosition ∉ rebuildUniformLambdas activeNoPosition twoPopulatedChannels :=
  ⟨(updateUniforms_exactly_present allActive twoPopulatedChannels).2.2.2.2.2
      (fun _ => rfl) (by decide) (by decide) (by decide) (by decide),
   (updateUniforms_exactly_present activeNoPosition twoPopulatedChannels).2.2.2.2.1 rfl⟩

/-- C7 counterexample: a channel-sampler action does NOT freeze what it
binds at rebuild time.  With slot 0 holding texture 10, `updateUniforms`
produces the action `bindChannel 0`; after mutating slot 0 to texture 20
(with no rebuild), executing that very same action binds texture 20, not
the texture 10 it bound before the mutation — because the C++ lambda
captures only the index by value and re-reads `this->channels[i]` at call
time.  So the behaviour of an already-produced action is sensitive to later
slot mutation even without a rebuild, contradicting the claim. -/
theorem channelAction_rereads_slot_counterexample :
    UniformAction.bindChannel 0 ∈ rebuildUniformLambdas allActive chBefore ∧
    runChannelLambda chBefore 0 = some (0, 10, TexTarget.two) ∧
    runChannelLambda chAfter 0 = some (0, 20, TexTarget.two) ∧
    some (0, 10, TexTarget.two) ≠ some (0, 20, TexTarget.two) := by
  decide

/-- C7 amended: every channel-sampler action captures, by value, only its
slot index; the action sequence membership is fixed by rebuild and depends
only on the active-uniform set and on which slots currently hold textures
(so the sequence must be rebuilt whenever the bound texture of a channel
changes), while the executed binding re-reads the current slot texture
and target through the renderer at call time — a mutated slot changes what
an existing action binds, and a cleared slot turns it into a no-op. -/
theorem channelAction_capture_semantics (active : WellKnownUniform → Bool)
    (ch ch' : Fin 4 → ChannelSlot) (i : Fin 4) (t : Nat)
    (hsame : ∀ j : Fin 4, (ch j).texture.isSome = (ch' j).texture.isSome) :
    rebuildUniformLambdas active ch = rebuildUniformLambdas active ch' ∧
    ((ch' i).texture = some t →
       runChannelLambda ch' i = some (i.val, t, (ch' i).target)) ∧
    ((ch' i).texture = none → runChannelLambda ch' i = none) := by
  refine ⟨?_, ?_, ?_⟩
  · rw [rebuildUniformLambdas, rebuildUniformLambdas]
    unfold channelAction
    rw [hsame 0, hsame 1, hsame 2, hsame 3]
  · intro ht
    rw [runChannelLambda, ht]
  · intro ht
    rw [runChannelLambda, ht]

/-- C7 amended witness: the pre- and post-mutation channel arrays have the
same texture-presence pattern, so rebuild yields the identical action list;
executing the slot-0 action against the mutated array binds the current
texture 20. -/
theorem channelAction_capture_semantics_witness :
    rebuildUniformLambdas allActive chBefore = rebuildUniformLambdas allActive chAfter ∧
    runChannelLambda chAfter 0 = some (0, 20, TexTarget.two) :=
  ⟨(channelAction_capture_semantics allActive chBefore chAfter 0 20 (by decide)).1,
   (channelAction_capture_semantics allActive chBefore chAfter 0 20 (by decide)).2.1
     (by decide)⟩

/-- Helper: `loadTexture` only touches the texture cache and the fresh-id
counter, never the recorded channel sources or the channel slots. -/
theorem loadTexture_preserves_sources (s : TexState) (u : String) :
    (loadTexture s u).1.channelSources = s.channelSources := by
  unfold loadTexture
  cases h : assocLookup s.textureCache (resolveCanonical s.canonicalUrlMap u) <;> simp [h]

/-- Helper: `loadTexture` performs no GPU upload on a cache hit and exactly
one on a miss. -/
theorem loadTexture_uploads (s : TexState) (u : String) :
    (loadTexture s u).2.2 =
      if (assocLookup s.textureCache (resolveCanonical s.canonicalUrlMap u)).isSome
      then 0 else 1 := by
  unfold loadTexture
  cases h : assocLookup s.textureCache (resolveCanonical s.canonicalUrlMap u) <;> simp [h]

/-- C8 counterexample: in the state `initTextureCache` leaves behind —
where the bundled `qrc:/textures/tex00.png` is already in the texture
cache — the end-to-end scenario of the spec performs ZERO GPU uploads, not
exactly one: the first `setChannel(0, plane, tex00Url)` is a cache hit and
the second returns early on the identifier match.  (The single upload of
that texture happened once at initialisation, before any `setChannel`.) -/
theorem setChannel_preloaded_counterexample :
    (setChannelTextureInternal preloadedState 0 ChannelInputType.texture tex00Url).2 +
      (setChannelTextureInternal
        (setChannelTextureInternal preloadedState 0 ChannelInputType.texture tex00Url).1
        0 ChannelInputType.texture tex00Url).2 = 0 ∧
    (setChannelTextureInternal preloadedState 0 ChannelInputType.texture tex00Url).2 +
      (setChannelTextureInternal
        (setChannelTextureInternal preloadedState 0 ChannelInputType.texture tex00Url).1
        0 ChannelInputType.texture tex00Url).2 ≠ 1 := by
  constructor
  · decide
  · decide

/-- C8 amended: `setChannel` with an identifier equal to the
currently recorded slot identifier is a no-op that changes nothing and performs
no GPU upload.  Starting with channel 0 unset, calling
`setChannel(0, TEXTURE, url)` twice records the identifier, the second call
returns early as a pure no-op, and the pair of calls performs at most one
GPU upload: exactly one when the resolved identifier is not yet in the
texture cache (lazy load), and zero when it was preloaded — as the bundled
`qrc:/textures/tex00.png` is by `initTextureCache`. -/
theorem setChannel_noop_and_upload_dichotomy :
    (∀ (s : TexState) (channel : Fin 4) (type : ChannelInputType) (u : String),
       u = s.channelSources channel →
       setChannelTextureInternal s channel type u = (s, 0)) ∧
    (∀ (s : TexState) (url : String),
       s.channelSources 0 = "" → url ≠ "" →
       (setChannelTextureInternal s 0 ChannelInputType.texture url).1.channelSources 0 = url ∧
       setChannelTextureInternal
           (setChannelTextureInternal s 0 ChannelInputType.texture url).1
           0 ChannelInputType.texture url =
         ((setChannelTextureInternal s 0 ChannelInputType.texture url).1, 0) ∧
       (setChannelTextureInternal s 0 ChannelInputType.texture url).2 =
         (if (assocLookup s.textureCache (resolveCanonical s.canonicalUrlMap url)).isSome
          then 0 else 1)) := by
  have hnoop : ∀ (s : TexState) (channel : Fin 4) (type : ChannelInputType) (u : String),
      u = s.channelSources channel →
      setChannelTextureInternal s channel type u = (s, 0) := by
    intro s channel type u h
    simp [setChannelTextureInternal, h]
  refine ⟨hnoop, ?_⟩
  intro s url hunset hne
  have hne0 : ¬ (url = s.channelSources 0) := by rw [hunset]; exact hne
  have hsrc : (setChannelTextureInternal s 0 ChannelInputType.texture url).1.channelSources 0 = url := by
    simp only [setChannelTextureInternal, if_neg hne0, if_neg hne]
    rw [loadTexture_preserves_sources]
    simp [updateSlot]
  refine ⟨hsrc, hnoop _ 0 ChannelInputType.texture url hsrc.symm, ?_⟩
  simp only [setChannelTextureInternal, if_neg hne0, if_neg hne]
  rw [loadTexture_uploads]

/-- C8 amended witness: starting from the state where the identifier has
never been loaded, the two calls of the scenario record the identifier,
the second is a no-op, and exactly one GPU upload happens. -/
theorem setChannel_noop_and_upload_dichotomy_witness :
    (setChannelTextureInternal uncachedState 0 ChannelInputType.texture tex00Url).2 = 1 ∧
    setChannelTextureInternal
        (setChannelTextureInternal uncachedState 0 ChannelInputType.texture tex00Url).1
        0 ChannelInputType.texture tex00Url =
      ((setChannelTextureInternal uncachedState 0 ChannelInputType.texture tex00Url).1, 0) := by
  have h := setChannel_noop_and_upload_dichotomy.2 uncachedState tex00Url rfl (by decide)
  exact ⟨h.2.2.trans (by decide), h.2.1⟩

/-- C9: after every resolution-scale-change event the shader
render-resolution scale lies in the closed interval from 1/10 to 1; the new
scale is the requested factor multiplied by the current scale (compounding
relative adjustment) clamped to that interval, and a render-thread update
task is queued exactly when the clamped result differs from the current
scale. -/
theorem textureResolution_clamped (scale texRes : ℚ) :
    (onModifyTextureResolution scale texRes).1 =
      max (1 / 10) (min 1 (scale * texRes)) ∧
    1 / 10 ≤ (onModifyTextureResolution scale texRes).1 ∧
    (onModifyTextureResolution scale texRes).1 ≤ 1 ∧
    ((onModifyTextureResolution scale texRes).2 = true ↔
      max (1 / 10) (min 1 (scale * texRes)) ≠ texRes) := by
  have hle : (1 : ℚ) / 10 ≤ 1 := by norm_num
  simp only [onModifyTextureResolution]
  split
  next h =>
    refine ⟨rfl, le_max_left _ _, max_le hle (min_le_left _ _), ?_⟩
    simp only [true_iff]
    exact h
  next h =>
    rw [not_ne_iff] at h
    refine ⟨h.symm, ?_, ?_, ?_⟩
    · rw [← h]; exact le_max_left _ _
    · rw [← h]; exact max_le hle (min_le_left _ _)
    · simp only [Bool.false_eq_true, false_iff, not_ne_iff]
      exact h
